import Mathlib

/-!
Verification of the slot-game Monte Carlo simulator (`slot-simulator.py`).

The Python source is shallowly embedded below.  Symbols are strings, money
amounts are exact rationals (Python computes them with `/`, i.e. float
division; we use exact arithmetic), screens are lists of reel columns
(each column lists the 3 visible rows), and the mutable contribution
ledger (`self.payout_contributions`, a `defaultdict(float)`) is a total
function from combination keys to rationals, threaded explicitly.
Python runtime failures (`ZeroDivisionError` from `/`, `ValueError` from
`random.randrange(0)`, `math.sqrt` domain errors) are modelled with
`Except`.
-/

namespace SlotSim

abbrev Sym := String

abbrev Screen := List (List Sym)

abbrev Ledger := String → ℚ

/-- Python `str.isdigit`: nonempty and every character is a digit. -/
def pyIsDigit (s : String) : Bool := !s.isEmpty && s.toList.all Char.isDigit

/-- Python `int(s)` on a digit string (only ever applied when `pyIsDigit`
holds, where it is the base-10 value of the digits). -/
def pyToNat (s : String) : Nat :=
  s.toList.foldl (fun n c => n * 10 + (c.toNat - Char.toNat '0')) 0

/-- The configuration record handed to `SlotGameSimulator.__init__`.  The raw
paytable is an association list (Python dict) from symbol to an association
list from count string to raw payout.  `wild_reels` and `star_scatter_reels`
are stored already 0-based (the constructor subtracts 1 from the config's
1-based values). -/
structure Config where
  paytable : List (Sym × List (String × ℚ))
  virtual_reel_strips : List (List Sym)
  bet_per_line : ℚ
  num_lines : ℚ
  base_bet_for_paytable_display : ℚ
  wild_symbol : Sym
  scatter_symbols : List Sym
  wild_reels : List Nat
  star_scatter_reels : List Nat

/-- `self.num_reels = len(self.virtual_reel_strips)`. -/
def num_reels (cfg : Config) : Nat := cfg.virtual_reel_strips.length

/-- `self.total_bet_per_spin = self.bet_per_line * self.num_lines`. -/
def total_bet_per_spin (cfg : Config) : ℚ := cfg.bet_per_line * cfg.num_lines

/-- `self.base_bet_per_line_display = base_bet_for_paytable_display / num_lines`. -/
def base_bet_per_line_display (cfg : Config) : ℚ :=
  cfg.base_bet_for_paytable_display / cfg.num_lines

/-- `_parse_paytable`, the `scatter_pays` output: every paytable entry whose
symbol is not the wild and is a scatter symbol, with digit keys converted to
numbers and non-digit annotation keys dropped. -/
def scatter_pays (cfg : Config) : List (Sym × List (Nat × ℚ)) :=
  (cfg.paytable.filter
    (fun p => p.1 != cfg.wild_symbol && cfg.scatter_symbols.contains p.1)).map
    (fun p => (p.1, (p.2.filter (fun kv => pyIsDigit kv.1)).map
      (fun kv => (pyToNat kv.1, kv.2))))

/-- `_parse_paytable`, the `line_pays` output: `(symbol, count) → payout` for
every non-wild, non-scatter paytable entry with a digit count key. -/
def line_pays (cfg : Config) : List ((Sym × Nat) × ℚ) :=
  (cfg.paytable.filter
    (fun p => p.1 != cfg.wild_symbol && !cfg.scatter_symbols.contains p.1)).flatMap
    (fun p => (p.2.filter (fun kv => pyIsDigit kv.1)).map
      (fun kv => ((p.1, pyToNat kv.1), kv.2)))

/-- `_parse_paytable`, the `regular_symbols` output: every paytable symbol
except the wild and the scatters (both loops of the source add exactly this
set). -/
def regular_symbols (cfg : Config) : List Sym :=
  (cfg.paytable.map Prod.fst).filter
    (fun s => s != cfg.wild_symbol && !cfg.scatter_symbols.contains s)

/-- `_define_paylines`: the 10 fixed paylines, as (reel, row) coordinates. -/
def define_paylines : List (List (Nat × Nat)) :=
  [ [(0, 1), (1, 1), (2, 1), (3, 1), (4, 1)],
    [(0, 0), (1, 0), (2, 0), (3, 0), (4, 0)],
    [(0, 2), (1, 2), (2, 2), (3, 2), (4, 2)],
    [(0, 0), (1, 1), (2, 2), (3, 1), (4, 0)],
    [(0, 2), (1, 1), (2, 0), (3, 1), (4, 2)],
    [(0, 0), (1, 0), (2, 1), (3, 2), (4, 2)],
    [(0, 2), (1, 2), (2, 1), (3, 0), (4, 0)],
    [(0, 1), (1, 2), (2, 2), (3, 2), (4, 1)],
    [(0, 1), (1, 0), (2, 0), (3, 0), (4, 1)],
    [(0, 0), (1, 1), (2, 1), (3, 1), (4, 0)] ]

/-- `_spin_reels`, with the per-reel random stop positions passed in
explicitly: column `i` is the 3 consecutive strip symbols starting at
`stops[i]`, wrapping modulo the strip length. -/
def spin_reels (strips : List (List Sym)) (stops : List Nat) : Screen :=
  (List.range strips.length).map (fun i =>
    let strip := strips.getD i []
    let start := stops.getD i 0
    (List.range 3).map (fun j => strip.getD ((start + j) % strip.length) ""))

/-- The inner row loop of `_apply_expanding_wilds`: overwrite rows 0, 1, 2 of
a column with the wild symbol. -/
def wild_column (w : Sym) (col : List Sym) : List Sym :=
  ((col.set 0 w).set 1 w).set 2 w

/-- `_apply_expanding_wilds`: starting from a copy of the visible screen, for
each reel index in `wild_reels` (in order), if the current column holds the
wild symbol, overwrite its 3 rows with the wild symbol. -/
def apply_expanding_wilds (cfg : Config) (visible : Screen) : Screen :=
  cfg.wild_reels.foldl
    (fun cur r =>
      if (cur.getD r []).any (fun s => s == cfg.wild_symbol) then
        cur.set r (wild_column cfg.wild_symbol (cur.getD r []))
      else cur)
    visible

/-- The decrementing search of `_check_line_win`: Python
`for count_match in range(cnt, min_match - 1, -1)` with a `break` on the
first `(target, count_match)` present in `line_pays`; returns that count and
its raw payout. -/
def search_down (lp : List ((Sym × Nat) × ℚ)) (target : Sym) (lo : Nat) :
    Nat → Option (Nat × ℚ)
  | 0 =>
    if lo = 0 then
      match lp.lookup (target, 0) with
      | some q => some (0, q)
      | none => none
    else none
  | c + 1 =>
    if c + 1 < lo then none
    else
      match lp.lookup (target, c + 1) with
      | some q => some (c + 1, q)
      | none => search_down lp target lo c

/-- The consecutive-match count of `_check_line_win`: walk the first
`num_reels` line cells left to right, counting while the cell equals the
target or equals the wild (the wild substituting only for non-scatter
targets), stopping at the first mismatch. -/
def consecutive_count (cfg : Config) (line : List Sym) (target : Sym) : Nat :=
  ((line.take (num_reels cfg)).takeWhile
    (fun s => s == target ||
      (s == cfg.wild_symbol && !cfg.scatter_symbols.contains target))).length

/-- `_check_line_win`: over all regular symbols, find the combination with
the strictly highest raw payout; returns that payout (0 when none) and its
ledger key. -/
def check_line_win (cfg : Config) (line : List Sym) : ℚ × Option String :=
  (regular_symbols cfg).foldl
    (fun best target =>
      let cnt := consecutive_count cfg line target
      let min_match : Nat := if target == "Seven" then 2 else 3
      match search_down (line_pays cfg) target min_match cnt with
      | some (c, raw) =>
        if raw > best.1 then (raw, some (target ++ " x" ++ toString c)) else best
      | none => best)
    ((0 : ℚ), (none : Option String))

/-- State accumulated by `_calculate_spin_payout`: the spin payout so far,
the winning flag, and the (persistent) contribution ledger. -/
@[ext]
structure EvalState where
  payout : ℚ
  winning : Bool
  ledger : Ledger

/-- `self.payout_contributions[k] += v`. -/
def upd_ledger (L : Ledger) (k : String) (v : ℚ) : Ledger :=
  fun k' => if k' = k then L k' + v else L k'

/-- The common shape of every win branch of `_calculate_spin_payout`: add the
scaled amount to the spin payout, set the winning flag and credit the
contribution ledger under the combination key. -/
def credit (key : String) (v : ℚ) (st : EvalState) : EvalState :=
  { payout := st.payout + v, winning := true, ledger := upd_ledger st.ledger key v }

/-- The contribution-ledger key credited by the DollarScatter block. -/
def dollar_key (cnt : Nat) : String := "DollarScatter x" ++ toString cnt ++ " (Scatter)"

/-- The contribution-ledger key credited by the StarScatter block. -/
def star_key (cnt : Nat) : String := "StarScatter x" ++ toString cnt ++ " (Scatter)"

/-- The DollarScatter block of `_calculate_spin_payout`: grid count over the
original screen, paid when the count has a `scatter_pays` entry. -/
def dollar_step (cfg : Config) (orig : Screen) (st : EvalState) : EvalState :=
  let cnt := (orig.map (fun col => col.count "DollarScatter")).sum
  match (scatter_pays cfg).lookup "DollarScatter" with
  | none => st
  | some tbl =>
    match tbl.lookup cnt with
    | none => st
    | some raw =>
      credit (dollar_key cnt)
        (raw / cfg.base_bet_for_paytable_display * total_bet_per_spin cfg) st

/-- The StarScatter block of `_calculate_spin_payout`: count the configured
star reels whose original column shows a StarScatter, paid when the count has
a `scatter_pays` entry. -/
def star_step (cfg : Config) (orig : Screen) (st : EvalState) : EvalState :=
  let cnt := cfg.star_scatter_reels.foldl
    (fun k r => if (orig.getD r []).any (fun s => s == "StarScatter") then k + 1 else k) 0
  match (scatter_pays cfg).lookup "StarScatter" with
  | none => st
  | some tbl =>
    match tbl.lookup cnt with
    | none => st
    | some raw =>
      credit (star_key cnt)
        (raw / cfg.base_bet_for_paytable_display * total_bet_per_spin cfg) st

/-- Reading one payline off the wild-expanded screen. -/
def line_symbols (screen : Screen) (pl : List (Nat × Nat)) : List Sym :=
  pl.map (fun rc => (screen.getD rc.1 []).getD rc.2 "")

/-- The payline loop body of `_calculate_spin_payout`: score one payline on
the expanded screen and, if its raw payout is positive, add the scaled line
payout, set the winning flag and credit the ledger. -/
def line_step (cfg : Config) (expanded : Screen) (st : EvalState)
    (pl : List (Nat × Nat)) : EvalState :=
  let res := check_line_win cfg (line_symbols expanded pl)
  if res.1 > 0 then
    credit (res.2.getD "") (res.1 / base_bet_per_line_display cfg * cfg.bet_per_line) st
  else st

/-- `_calculate_spin_payout`: scatters are scored on the original screen,
lines on the wild-expanded screen; the incoming ledger is the simulator's
persistent `payout_contributions`. -/
def calculate_spin_payout (cfg : Config) (orig : Screen) (L : Ledger) : EvalState :=
  let expanded := apply_expanding_wilds cfg orig
  define_paylines.foldl (line_step cfg expanded)
    (star_step cfg orig (dollar_step cfg orig { payout := 0, winning := false, ledger := L }))

/-- Runtime failures of the Python source.  `configError` is the error class
named by the specification's error-handling design; the source never defines
or raises it, the constructor exists so that statements about it can be
written down. -/
inductive SimErr where
  | configError
  | zeroDivisionError
  | valueError
  | mathDomainError
deriving DecidableEq, Repr

/-- Python `/`: raises `ZeroDivisionError` on a zero denominator. -/
def pydiv (a b : ℚ) : Except SimErr ℚ :=
  if b = 0 then .error .zeroDivisionError else .ok (a / b)

/-- The domain check of `math.sqrt`: a negative argument raises
`ValueError: math domain error`. -/
def pysqrt_check (x : ℚ) : Except SimErr Unit :=
  if x < 0 then .error .mathDomainError else .ok ()

/-- The running totals of `run_simulation`
(`total_payout`, `sum_of_squared_payouts`, `total_winning_spins`,
`max_win`, `payout_contributions`). -/
structure Accum where
  total_payout : ℚ
  sum_sq : ℚ
  winning_spins : Nat
  max_win : ℚ
  ledger : Ledger

/-- The accumulators as reset at the top of `run_simulation`. -/
def init_accum : Accum :=
  { total_payout := 0, sum_sq := 0, winning_spins := 0, max_win := 0, ledger := fun _ => 0 }

/-- One iteration of the spin loop of `run_simulation`. -/
def do_spin (cfg : Config) (acc : Accum) (stops : List Nat) : Accum :=
  let screen := spin_reels cfg.virtual_reel_strips stops
  let st := calculate_spin_payout cfg screen acc.ledger
  { total_payout := acc.total_payout + st.payout
    sum_sq := acc.sum_sq + st.payout ^ 2
    winning_spins := acc.winning_spins + (if st.winning then 1 else 0)
    max_win := if st.payout > acc.max_win then st.payout else acc.max_win
    ledger := st.ledger }

/-- The final report record of `run_simulation` (the printed results).  The
standard deviation is kept out of the record because `Real.sqrt` is not
executable; `finalize_stats` performs the `math.sqrt` domain check and
`report_std_dev` gives its value. -/
structure Report where
  rtp : ℚ
  variance : ℚ
  hit_frequency : ℚ
  average_win : ℚ
  max_win : ℚ
  total_payout : ℚ
  ledger : Ledger

/-- The results block of `run_simulation`, in source order: RTP, mean payout,
mean squared payout, variance, standard deviation, hit frequency, average
win.  The source computes `std_dev = math.sqrt(variance)` directly — there
is no `max(variance, 0)` clamp — so a negative computed variance raises the
math domain error, modelled by `pysqrt_check`. -/
def finalize_stats (cfg : Config) (n : Nat) (acc : Accum) : Except SimErr Report :=
  match pydiv acc.total_payout ((n : ℚ) * total_bet_per_spin cfg) with
  | .error e => .error e
  | .ok rtp0 =>
    match pydiv acc.total_payout (n : ℚ) with
    | .error e => .error e
    | .ok avg =>
      match pydiv acc.sum_sq (n : ℚ) with
      | .error e => .error e
      | .ok avg_sq =>
        let variance := avg_sq - avg ^ 2
        match pysqrt_check variance with
        | .error e => .error e
        | .ok _ =>
          match pydiv ((acc.winning_spins : ℚ)) (n : ℚ) with
          | .error e => .error e
          | .ok hit0 =>
            .ok { rtp := rtp0 * 100
                  variance := variance
                  hit_frequency := hit0 * 100
                  average_win := if acc.winning_spins > 0 then
                    acc.total_payout / (acc.winning_spins : ℚ) else 0
                  max_win := acc.max_win
                  total_payout := acc.total_payout
                  ledger := acc.ledger }

/-- `math.sqrt(variance)` of a finalized report: the unclamped square root
the source takes (a report only exists when `finalize_stats` did not hit the
domain error). -/
noncomputable def report_std_dev (r : Report) : ℝ := Real.sqrt (r.variance : ℝ)

/-- `run_simulation`, with the random stop positions of spin `i` supplied by
`stops i`.  If at least one spin runs and some reel strip is empty, the first
spin's `random.randrange(0)` raises `ValueError`; otherwise the spin loop
accumulates and the results block runs. -/
def run_simulation (cfg : Config) (num_spins : Nat) (stops : Nat → List Nat) :
    Except SimErr Report :=
  if 0 < num_spins && cfg.virtual_reel_strips.any List.isEmpty then
    .error .valueError
  else
    finalize_stats cfg num_spins
      ((List.range num_spins).foldl (fun acc i => do_spin cfg acc (stops i)) init_accum)

/-- Spec-side candidate payout of one regular symbol on one payline, written
from the claim's words: count the run of consecutive matches starting at reel
0, a cell matching if it equals the symbol or the wild; minimum required
count 3 except 2 for the premium symbol; decrement from the run length to the
minimum and take the first count present in `line_pays`. -/
def payout_candidate (cfg : Config) (line : List Sym) (S : Sym) : ℚ :=
  let run := (line.takeWhile (fun c => c == S || c == cfg.wild_symbol)).length
  let min_match : Nat := if S == "Seven" then 2 else 3
  match search_down (line_pays cfg) S min_match run with
  | some p => p.2
  | none => 0

/-- Spec-side grid-count rule: the total number of cells on the whole screen
equal to the symbol. -/
def grid_count_rule (orig : Screen) (sym : Sym) : Nat := orig.flatten.count sym

/-- Spec-side reel-presence rule: the number of reels among the restricted
subset where the symbol appears in at least one visible cell. -/
def reel_presence_rule (reels : List Nat) (orig : Screen) (sym : Sym) : Nat :=
  reels.countP (fun r => (orig.getD r []).any (fun s => s == sym))

/-- Spec-side scatter amount: when the scatter paytable of `name` has an
entry for the computed count, `rawPayout / baseDisplayBet × totalBetPerSpin`,
otherwise 0. -/
def scatter_amount (cfg : Config) (name : Sym) (cnt : Nat) : ℚ :=
  match (scatter_pays cfg).lookup name with
  | none => 0
  | some tbl =>
    match tbl.lookup cnt with
    | none => 0
    | some raw => raw / cfg.base_bet_for_paytable_display * total_bet_per_spin cfg

/-- Whether the scatter paytable of `name` has an entry for the count. -/
def scatter_fired (cfg : Config) (name : Sym) (cnt : Nat) : Bool :=
  match (scatter_pays cfg).lookup name with
  | none => false
  | some tbl => (tbl.lookup cnt).isSome

/-- Two spin-evaluation states agree except for an identical additive ledger
offset relative to their respective starting ledgers. -/
def StateRel (L L' : Ledger) (st st' : EvalState) : Prop :=
  st.payout = st'.payout ∧ st.winning = st'.winning ∧
    ∀ k, st.ledger k - L k = st'.ledger k - L' k

/-- A concrete test configuration: the source's `BASE_GAME_CONFIG` (with its
1-based `wild_reels`/`star_scatter_reels` already shifted to 0-based, as the
constructor does) together with some small single-symbol reel strips standing
in for the externally loaded reel file. -/
def base_config : Config :=
  { paytable := [
      ("Seven", [("5", 50000), ("4", 2500), ("3", 500), ("2", 100)]),
      ("Watermelon", [("5", 7000), ("4", 1200), ("3", 400)]),
      ("Grapes", [("5", 7000), ("4", 1200), ("3", 400)]),
      ("Bell", [("5", 2000), ("4", 400), ("3", 200)]),
      ("Plum", [("5", 1500), ("4", 300), ("3", 100)]),
      ("Orange", [("5", 1500), ("4", 300), ("3", 100)]),
      ("Cherry", [("5", 1500), ("4", 300), ("3", 100)]),
      ("Lemon", [("5", 1500), ("4", 300), ("3", 100)]),
      ("DollarScatter", [("5", 10000), ("4", 2000), ("3", 500)]),
      ("StarScatter", [("3", 2000)])],
    virtual_reel_strips := [["Seven"], ["Seven"], ["Seven"], ["Cherry"], ["Lemon"]],
    bet_per_line := 1, num_lines := 10, base_bet_for_paytable_display := 100,
    wild_symbol := "Wild", scatter_symbols := ["DollarScatter", "StarScatter"],
    wild_reels := [1, 2, 3], star_scatter_reels := [0, 2, 4] }

/-- A concrete degenerate configuration whose only paytable entry has payout
0 and whose reels show "DollarScatter" on every cell of every spin. -/
def cfg_zero : Config :=
  { base_config with
    paytable := [("DollarScatter", [("15", 0)])]
    virtual_reel_strips := List.replicate 5 ["DollarScatter"] }

lemma mem_getD_lt {s : Screen} {r : Nat} {w : Sym} (h : w ∈ s.getD r []) :
    r < s.length := by
  by_contra hr
  rw [List.getD_eq_default s [] (Nat.le_of_not_lt hr)] at h
  exact absurd h (List.not_mem_nil w)

lemma getD_set_self {s : Screen} {j : Nat} (c : List Sym) (h : j < s.length) :
    (s.set j c).getD j [] = c := by
  simp [List.getD_eq_getElem?_getD, List.getElem?_set_self h]

lemma getD_set_ne {s : Screen} {i j : Nat} (c : List Sym) (h : i ≠ j) :
    (s.set i c).getD j [] = s.getD j [] := by
  simp [List.getD_eq_getElem?_getD, List.getElem?_set_ne h]

lemma wild_column_eq_replicate {w : Sym} {col : List Sym} (h : col.length = 3) :
    wild_column w col = List.replicate 3 w := by
  rcases col with _ | ⟨a, _ | ⟨b, _ | ⟨c, _ | ⟨d, t⟩⟩⟩⟩ <;>
    simp_all [wild_column, List.replicate]

lemma mem_wild_column {w : Sym} {col : List Sym} (h : col ≠ []) :
    w ∈ wild_column w col := by
  rcases col with _ | ⟨a, _ | ⟨b, _ | ⟨c, t⟩⟩⟩ <;> simp_all [wild_column]

lemma wild_column_idem (w : Sym) (col : List Sym) :
    wild_column w (wild_column w col) = wild_column w col := by
  rcases col with _ | ⟨a, _ | ⟨b, _ | ⟨c, t⟩⟩⟩ <;> simp [wild_column]

lemma any_beq_iff {l : List Sym} {w : Sym} :
    (l.any (fun s => s == w) = true) ↔ w ∈ l := by
  simp only [List.any_eq_true, beq_iff_eq]
  constructor
  · rintro ⟨x, hx, rfl⟩; exact hx
  · intro h; exact ⟨w, h, rfl⟩

/-- Pointwise description of the `_apply_expanding_wilds` fold: a column ends
up wild-filled exactly when its index occurs in the processed reel list and
the incoming column held the wild symbol. -/
lemma expand_foldl_getD (cfg : Config) :
    ∀ (rs : List Nat) (s : Screen) (r : Nat),
      (rs.foldl (fun cur j =>
          if (cur.getD j []).any (fun x => x == cfg.wild_symbol) then
            cur.set j (wild_column cfg.wild_symbol (cur.getD j []))
          else cur) s).getD r [] =
        if r ∈ rs ∧ cfg.wild_symbol ∈ s.getD r [] then
          wild_column cfg.wild_symbol (s.getD r []) else s.getD r []
  | [], s, r => by simp
  | j :: rs, s, r => by
    rw [List.foldl_cons]
    by_cases hj : (s.getD j []).any (fun x => x == cfg.wild_symbol) = true
    · rw [if_pos hj]
      have hw : cfg.wild_symbol ∈ s.getD j [] := any_beq_iff.mp hj
      have hlt : j < s.length := mem_getD_lt hw
      rw [expand_foldl_getD cfg rs _ r]
      by_cases hrj : r = j
      · subst hrj
        rw [getD_set_self _ hlt]
        have hne : s.getD r [] ≠ [] := by
          intro h0; rw [h0] at hw; exact absurd hw (List.not_mem_nil _)
        by_cases hmem : r ∈ rs
        · rw [if_pos ⟨hmem, mem_wild_column hne⟩, wild_column_idem,
            if_pos ⟨List.mem_cons_self r rs, hw⟩]
        · rw [if_neg (by simp [hmem]), if_pos ⟨List.mem_cons_self r rs, hw⟩]
      · rw [getD_set_ne _ (Ne.symm hrj)]
        by_cases hc : r ∈ rs ∧ cfg.wild_symbol ∈ s.getD r []
        · rw [if_pos hc, if_pos ⟨List.mem_cons_of_mem j hc.1, hc.2⟩]
        · rw [if_neg hc, if_neg (by
            rintro ⟨hm, hw'⟩
            rcases List.mem_cons.mp hm with h | h
            · exact hrj h
            · exact hc ⟨h, hw'⟩)]
    · rw [if_neg hj]
      rw [expand_foldl_getD cfg rs s r]
      have hw : cfg.wild_symbol ∉ s.getD j [] := fun h => hj (any_beq_iff.mpr h)
      by_cases hc : r ∈ rs ∧ cfg.wild_symbol ∈ s.getD r []
      · rw [if_pos hc, if_pos ⟨List.mem_cons_of_mem j hc.1, hc.2⟩]
      · rw [if_neg hc, if_neg (by
          rintro ⟨hm, hw'⟩
          rcases List.mem_cons.mp hm with h | h
          · exact hw (h ▸ hw')
          · exact hc ⟨h, hw'⟩)]

lemma expand_foldl_length (cfg : Config) :
    ∀ (rs : List Nat) (s : Screen),
      (rs.foldl (fun cur j =>
          if (cur.getD j []).any (fun x => x == cfg.wild_symbol) then
            cur.set j (wild_column cfg.wild_symbol (cur.getD j []))
          else cur) s).length = s.length
  | [], s => rfl
  | j :: rs, s => by
    rw [List.foldl_cons]
    by_cases hj : (s.getD j []).any (fun x => x == cfg.wild_symbol) = true
    · rw [if_pos hj, expand_foldl_length cfg rs _, List.length_set]
    · rw [if_neg hj, expand_foldl_length cfg rs s]

end SlotSim

/-- C3: wild expansion replaces all 3 cells of a reel's column with the wild
symbol exactly when that reel index is in the wild-expansion set and at least
one of its visible cells is the wild symbol; every column of a reel outside
the set, or of an in-set reel containing no wild, equals the corresponding
input column, and the screen shape is preserved.  (The input screen itself is
untouched: the embedding is a pure function of it.) -/
theorem c3_wild_expansion (cfg : SlotSim.Config) (screen : SlotSim.Screen)
    (wf : ∀ col ∈ screen, col.length = 3) (r : Nat) :
    ((r ∈ cfg.wild_reels ∧ cfg.wild_symbol ∈ screen.getD r []) →
        (SlotSim.apply_expanding_wilds cfg screen).getD r [] =
          List.replicate 3 cfg.wild_symbol)
    ∧ ((r ∉ cfg.wild_reels ∨ cfg.wild_symbol ∉ screen.getD r []) →
        (SlotSim.apply_expanding_wilds cfg screen).getD r [] = screen.getD r [])
    ∧ (SlotSim.apply_expanding_wilds cfg screen).length = screen.length := by
  unfold SlotSim.apply_expanding_wilds
  rw [SlotSim.expand_foldl_getD cfg cfg.wild_reels screen r]
  refine ⟨?_, ?_, SlotSim.expand_foldl_length cfg cfg.wild_reels screen⟩
  · rintro ⟨hm, hw⟩
    rw [if_pos ⟨hm, hw⟩]
    have hlt : r < screen.length := SlotSim.mem_getD_lt hw
    have hmem : screen.getD r [] ∈ screen := by
      rw [List.getD_eq_getElem _ _ hlt]
      exact List.getElem_mem hlt
    exact SlotSim.wild_column_eq_replicate (wf _ hmem)
  · intro h
    rw [if_neg (by rintro ⟨hm, hw⟩; rcases h with h | h <;> exact h (by assumption))]

/-- Witness for C3 at a concrete screen: reel 2 is in the wild set and shows a
wild, so its column becomes all-wild; reel 0 shows a wild but is outside the
set, so it is unchanged. -/
theorem c3_wild_expansion_witness :
    (SlotSim.apply_expanding_wilds SlotSim.base_config
        [["Wild", "A", "B"], ["C", "D", "E"], ["F", "Wild", "G"],
         ["H", "I", "J"], ["K", "L", "M"]]).getD 2 [] = List.replicate 3 "Wild"
    ∧ (SlotSim.apply_expanding_wilds SlotSim.base_config
        [["Wild", "A", "B"], ["C", "D", "E"], ["F", "Wild", "G"],
         ["H", "I", "J"], ["K", "L", "M"]]).getD 0 [] = ["Wild", "A", "B"] :=
  ⟨(c3_wild_expansion SlotSim.base_config _ (by decide) 2).1 ⟨by decide, by decide⟩,
   (c3_wild_expansion SlotSim.base_config _ (by decide) 0).2.1 (Or.inl (by decide))⟩

namespace SlotSim

lemma rel_refl (L : Ledger) (p : ℚ) (w : Bool) (L' : Ledger) :
    StateRel L L' ⟨p, w, L⟩ ⟨p, w, L'⟩ :=
  ⟨rfl, rfl, fun _ => by simp⟩

lemma rel_credit {L L' : Ledger} {st st' : EvalState} (key : String) (v : ℚ)
    (h : StateRel L L' st st') : StateRel L L' (credit key v st) (credit key v st') := by
  obtain ⟨hp, hw, hl⟩ := h
  refine ⟨by simp [credit, hp], rfl, fun k => ?_⟩
  by_cases hk : k = key
  · simp only [credit, upd_ledger, if_pos hk]
    have := hl k
    linarith
  · simp only [credit, upd_ledger, if_neg hk]
    exact hl k

lemma rel_dollar {L L' : Ledger} {st st' : EvalState} (cfg : Config) (orig : Screen)
    (h : StateRel L L' st st') :
    StateRel L L' (dollar_step cfg orig st) (dollar_step cfg orig st') := by
  rcases h1 : (scatter_pays cfg).lookup "DollarScatter" with _ | tbl
  · simp only [dollar_step, h1]; exact h
  · rcases h2 : tbl.lookup ((orig.map (fun col => col.count "DollarScatter")).sum) with _ | raw
    · simp only [dollar_step, h1, h2]; exact h
    · simp only [dollar_step, h1, h2]; exact rel_credit _ _ h

lemma rel_star {L L' : Ledger} {st st' : EvalState} (cfg : Config) (orig : Screen)
    (h : StateRel L L' st st') :
    StateRel L L' (star_step cfg orig st) (star_step cfg orig st') := by
  rcases h1 : (scatter_pays cfg).lookup "StarScatter" with _ | tbl
  · simp only [star_step, h1]; exact h
  · rcases h2 : tbl.lookup (cfg.star_scatter_reels.foldl
      (fun k r => if (orig.getD r []).any (fun s => s == "StarScatter") then k + 1 else k) 0)
      with _ | raw
    · simp only [star_step, h1, h2]; exact h
    · simp only [star_step, h1, h2]; exact rel_credit _ _ h

lemma rel_line {L L' : Ledger} {st st' : EvalState} (cfg : Config) (expanded : Screen)
    (pl : List (Nat × Nat)) (h : StateRel L L' st st') :
    StateRel L L' (line_step cfg expanded st pl) (line_step cfg expanded st' pl) := by
  by_cases hc : (check_line_win cfg (line_symbols expanded pl)).1 > 0
  · simp only [line_step, if_pos hc]
    exact rel_credit _ _ h
  · simp only [line_step, if_neg hc]
    exact h

lemma rel_fold {L L' : Ledger} (cfg : Config) (expanded : Screen) :
    ∀ (pls : List (List (Nat × Nat))) {st st' : EvalState}, StateRel L L' st st' →
      StateRel L L' (pls.foldl (line_step cfg expanded) st)
        (pls.foldl (line_step cfg expanded) st')
  | [], _, _, h => h
  | pl :: pls, st, st', h => by
    rw [List.foldl_cons, List.foldl_cons]
    exact rel_fold cfg expanded pls (rel_line cfg expanded pl h)

lemma calc_rel (cfg : Config) (orig : Screen) (L L' : Ledger) :
    StateRel L L' (calculate_spin_payout cfg orig L) (calculate_spin_payout cfg orig L') := by
  unfold calculate_spin_payout
  exact rel_fold cfg _ define_paylines
    (rel_star cfg orig (rel_dollar cfg orig (rel_refl L 0 false L')))

end SlotSim

/-- C8: spin evaluation is a deterministic pure function of the screen and
configuration; for any two accumulated-ledger states (e.g. a first and a
repeated evaluation), the payout and the winning flag coincide and the
per-key ledger deltas coincide. -/
theorem c8_spin_eval_deterministic (cfg : SlotSim.Config) (screen : SlotSim.Screen)
    (L₁ L₂ : SlotSim.Ledger) :
    (SlotSim.calculate_spin_payout cfg screen L₁).payout =
      (SlotSim.calculate_spin_payout cfg screen L₂).payout
    ∧ (SlotSim.calculate_spin_payout cfg screen L₁).winning =
      (SlotSim.calculate_spin_payout cfg screen L₂).winning
    ∧ ∀ k, (SlotSim.calculate_spin_payout cfg screen L₁).ledger k - L₁ k =
      (SlotSim.calculate_spin_payout cfg screen L₂).ledger k - L₂ k :=
  SlotSim.calc_rel cfg screen L₁ L₂

namespace SlotSim

lemma dollar_count_eq (orig : Screen) :
    (orig.map (fun col => col.count "DollarScatter")).sum =
      grid_count_rule orig "DollarScatter" := by
  rw [grid_count_rule, List.count_flatten]

lemma countP_foldl (p : Nat → Bool) :
    ∀ (rs : List Nat) (n : Nat),
      rs.foldl (fun k r => if p r then k + 1 else k) n = n + rs.countP p
  | [], n => by simp
  | r :: rs, n => by
    rw [List.foldl_cons, countP_foldl p rs, List.countP_cons]
    by_cases hp : p r
    · simp [hp]; omega
    · simp [hp]

lemma star_count_eq (cfg : Config) (orig : Screen) :
    cfg.star_scatter_reels.foldl
        (fun k r => if (orig.getD r []).any (fun s => s == "StarScatter") then k + 1 else k) 0 =
      reel_presence_rule cfg.star_scatter_reels orig "StarScatter" := by
  rw [reel_presence_rule, countP_foldl]
  simp

lemma dollar_step_eq (cfg : Config) (orig : Screen) (st : EvalState) :
    dollar_step cfg orig st =
      { payout := st.payout +
          scatter_amount cfg "DollarScatter" (grid_count_rule orig "DollarScatter")
        winning := st.winning ||
          scatter_fired cfg "DollarScatter" (grid_count_rule orig "DollarScatter")
        ledger := fun k => st.ledger k +
          (if k = dollar_key (grid_count_rule orig "DollarScatter") then
            scatter_amount cfg "DollarScatter" (grid_count_rule orig "DollarScatter")
          else 0) } := by
  have hc := dollar_count_eq orig
  rcases h1 : (scatter_pays cfg).lookup "DollarScatter" with _ | tbl
  · simp only [dollar_step, scatter_amount, scatter_fired, h1]
    ext k <;> simp
  · rcases h2 : tbl.lookup (grid_count_rule orig "DollarScatter") with _ | raw
    · simp only [dollar_step, scatter_amount, scatter_fired, h1, hc, h2]
      ext k <;> simp
    · simp only [dollar_step, scatter_amount, scatter_fired, h1, hc, h2, credit]
      ext k <;> simp [upd_ledger]
      by_cases hk : k = dollar_key (grid_count_rule orig "DollarScatter") <;> simp [hk]

lemma star_step_eq (cfg : Config) (orig : Screen) (st : EvalState) :
    star_step cfg orig st =
      { payout := st.payout + scatter_amount cfg "StarScatter"
          (reel_presence_rule cfg.star_scatter_reels orig "StarScatter")
        winning := st.winning || scatter_fired cfg "StarScatter"
          (reel_presence_rule cfg.star_scatter_reels orig "StarScatter")
        ledger := fun k => st.ledger k +
          (if k = star_key (reel_presence_rule cfg.star_scatter_reels orig "StarScatter") then
            scatter_amount cfg "StarScatter"
              (reel_presence_rule cfg.star_scatter_reels orig "StarScatter")
          else 0) } := by
  have hc := star_count_eq cfg orig
  rcases h1 : (scatter_pays cfg).lookup "StarScatter" with _ | tbl
  · simp only [star_step, scatter_amount, scatter_fired, h1]
    ext k <;> simp
  · rcases h2 : tbl.lookup (reel_presence_rule cfg.star_scatter_reels orig "StarScatter")
      with _ | raw
    · simp only [star_step, scatter_amount, scatter_fired, h1, hc, h2]
      ext k <;> simp
    · simp only [star_step, scatter_amount, scatter_fired, h1, hc, h2, credit]
      ext k <;> simp [upd_ledger]
      by_cases hk : k = star_key (reel_presence_rule cfg.star_scatter_reels orig "StarScatter") <;>
        simp [hk]

end SlotSim

/-- C2: scatter evaluation works on the original, non-expanded screen — the
DollarScatter count is the total number of screen cells equal to it (grid
count) and the StarScatter count is the number of restricted reels showing it
in at least one cell (reel presence); whenever the respective scatter
paytable has an entry for the count, `rawPayout / baseDisplayBet ×
totalBetPerSpin` enters the spin payout, the winning flag is set and the key
`"{symbol} x{count} (Scatter)"` is credited by that amount; the payline loop
then runs on the wild-expanded screen from this state. -/
theorem c2_scatter_evaluation (cfg : SlotSim.Config) (orig : SlotSim.Screen)
    (L : SlotSim.Ledger) :
    SlotSim.calculate_spin_payout cfg orig L =
      SlotSim.define_paylines.foldl
        (SlotSim.line_step cfg (SlotSim.apply_expanding_wilds cfg orig))
        { payout :=
            SlotSim.scatter_amount cfg "DollarScatter"
              (SlotSim.grid_count_rule orig "DollarScatter") +
            SlotSim.scatter_amount cfg "StarScatter"
              (SlotSim.reel_presence_rule cfg.star_scatter_reels orig "StarScatter")
          winning :=
            SlotSim.scatter_fired cfg "DollarScatter"
              (SlotSim.grid_count_rule orig "DollarScatter") ||
            SlotSim.scatter_fired cfg "StarScatter"
              (SlotSim.reel_presence_rule cfg.star_scatter_reels orig "StarScatter")
          ledger := fun k => L k +
            (if k = SlotSim.dollar_key (SlotSim.grid_count_rule orig "DollarScatter") then
              SlotSim.scatter_amount cfg "DollarScatter"
                (SlotSim.grid_count_rule orig "DollarScatter")
            else 0) +
            (if k = SlotSim.star_key
                (SlotSim.reel_presence_rule cfg.star_scatter_reels orig "StarScatter") then
              SlotSim.scatter_amount cfg "StarScatter"
                (SlotSim.reel_presence_rule cfg.star_scatter_reels orig "StarScatter")
            else 0) } := by
  unfold SlotSim.calculate_spin_payout
  rw [SlotSim.dollar_step_eq, SlotSim.star_step_eq]
  ext k <;> simp

namespace SlotSim

/-- For a non-scatter target on a full-width line, the source's
consecutive-match count is the claim's plain run count (the scatter guard on
wild substitution is vacuous and the `num_reels` window covers the line). -/
lemma consecutive_count_eq (cfg : Config) (line : List Sym) (S : Sym)
    (hline : line.take (num_reels cfg) = line)
    (hS : cfg.scatter_symbols.contains S = false) :
    consecutive_count cfg line S =
      (line.takeWhile (fun c => c == S || c == cfg.wild_symbol)).length := by
  rw [consecutive_count, hline, hS]
  simp

/-- The payout component of the `_check_line_win` fold is the running maximum
of the per-symbol candidate payouts. -/
lemma check_fold_payout (cfg : Config) (line : List Sym)
    (hline : line.take (num_reels cfg) = line) :
    ∀ (syms : List Sym) (b : ℚ × Option String), 0 ≤ b.1 →
      (∀ S ∈ syms, cfg.scatter_symbols.contains S = false) →
      (syms.foldl
        (fun best target =>
          let cnt := consecutive_count cfg line target
          let min_match : Nat := if target == "Seven" then 2 else 3
          match search_down (line_pays cfg) target min_match cnt with
          | some (c, raw) =>
            if raw > best.1 then (raw, some (target ++ " x" ++ toString c)) else best
          | none => best) b).1 =
      (syms.map (payout_candidate cfg line)).foldl max b.1
  | [], b, _, _ => rfl
  | S :: rest, b, hb, hsc => by
    rw [List.foldl_cons, List.map_cons, List.foldl_cons]
    have hS : cfg.scatter_symbols.contains S = false := hsc S (List.mem_cons_self S rest)
    have hcnt := consecutive_count_eq cfg line S hline hS
    have hstep :
        ((fun (best : ℚ × Option String) target =>
          let cnt := consecutive_count cfg line target
          let min_match : Nat := if target == "Seven" then 2 else 3
          match search_down (line_pays cfg) target min_match cnt with
          | some (c, raw) =>
            if raw > best.1 then (raw, some (target ++ " x" ++ toString c)) else best
          | none => best) b S).1 = max b.1 (payout_candidate cfg line S) := by
      simp only [payout_candidate, hcnt]
      rcases h2 : search_down (line_pays cfg) S (if S == "Seven" then 2 else 3)
          ((line.takeWhile (fun c => c == S || c == cfg.wild_symbol)).length) with _ | ⟨c, raw⟩
      · simpa using (max_eq_left hb).symm
      · simp only []
        by_cases hgt : raw > b.1
        · rw [if_pos hgt]
          exact (max_eq_right (le_of_lt hgt)).symm
        · rw [if_neg hgt]
          exact (max_eq_left (le_of_not_lt hgt)).symm
    have hb' : 0 ≤ ((fun (best : ℚ × Option String) target =>
          let cnt := consecutive_count cfg line target
          let min_match : Nat := if target == "Seven" then 2 else 3
          match search_down (line_pays cfg) target min_match cnt with
          | some (c, raw) =>
            if raw > best.1 then (raw, some (target ++ " x" ++ toString c)) else best
          | none => best) b S).1 := by
      rw [hstep]; exact le_trans hb (le_max_left _ _)
    rw [check_fold_payout cfg line hline rest _ hb'
        (fun T hT => hsc T (List.mem_cons_of_mem S hT)), hstep]

lemma mem_regular_not_scatter {cfg : Config} {S : Sym}
    (h : S ∈ regular_symbols cfg) : cfg.scatter_symbols.contains S = false := by
  rw [regular_symbols] at h
  have := (List.mem_filter.mp h).2
  simp only [Bool.and_eq_true, Bool.not_eq_true'] at this
  exact this.2

end SlotSim

/-- C1: on a full-width payline of the wild-expanded screen the evaluator's
raw line payout is the maximum over all regular symbols of the candidate
payout obtained by counting the run of consecutive matches from reel 0 (a
cell matching if it equals the symbol or the wild), then decrementing from
the run length to the minimum required count (3, or 2 for the premium symbol
"Seven") and taking the first count present in `line_pays`; at most one
combination is kept per payline and, when positive, it contributes
`rawPayout / (baseDisplayBet / numLines) × betPerLine` to the spin payout. -/
theorem c1_payline_evaluator (cfg : SlotSim.Config) (line : List SlotSim.Sym)
    (h5 : SlotSim.num_reels cfg = 5) (hlen : line.length = 5) :
    (SlotSim.check_line_win cfg line).1 =
      ((SlotSim.regular_symbols cfg).map (SlotSim.payout_candidate cfg line)).foldl max 0
    ∧ ∀ (expanded : SlotSim.Screen) (st : SlotSim.EvalState) (pl : List (Nat × Nat)),
        (SlotSim.line_step cfg expanded st pl).payout = st.payout +
          (if (SlotSim.check_line_win cfg (SlotSim.line_symbols expanded pl)).1 > 0 then
            (SlotSim.check_line_win cfg (SlotSim.line_symbols expanded pl)).1 /
              (cfg.base_bet_for_paytable_display / cfg.num_lines) * cfg.bet_per_line
          else 0) := by
  constructor
  · have hline : line.take (SlotSim.num_reels cfg) = line := by
      rw [h5, ← hlen, List.take_length]
    exact SlotSim.check_fold_payout cfg line hline (SlotSim.regular_symbols cfg)
      (0, none) le_rfl (fun S hS => SlotSim.mem_regular_not_scatter hS)
  · intro expanded st pl
    by_cases hc : (SlotSim.check_line_win cfg (SlotSim.line_symbols expanded pl)).1 > 0
    · simp only [SlotSim.line_step, if_pos hc, SlotSim.credit,
        SlotSim.base_bet_per_line_display]
    · simp only [SlotSim.line_step, if_neg hc]
      simp

/-- Witness for C1 on the base configuration and the line
`Seven, Seven, Wild, Cherry, Lemon`: the run for "Seven" is 3 (the wild
substitutes), `(Seven, 3)` pays 500, and no other symbol beats it. -/
theorem c1_payline_evaluator_witness :
    ((SlotSim.check_line_win SlotSim.base_config
        ["Seven", "Seven", "Wild", "Cherry", "Lemon"]).1 =
      ((SlotSim.regular_symbols SlotSim.base_config).map
        (SlotSim.payout_candidate SlotSim.base_config
          ["Seven", "Seven", "Wild", "Cherry", "Lemon"])).foldl max 0)
    ∧ (SlotSim.check_line_win SlotSim.base_config
        ["Seven", "Seven", "Wild", "Cherry", "Lemon"]).1 = 500 :=
  ⟨(c1_payline_evaluator SlotSim.base_config
      ["Seven", "Seven", "Wild", "Cherry", "Lemon"] (by decide) (by decide)).1,
   by rfl⟩

namespace SlotSim

lemma scatter_amount_congr {cfg cfg' : Config} (name : Sym)
    (h : (scatter_pays cfg').lookup name = (scatter_pays cfg).lookup name)
    (hb : cfg'.base_bet_for_paytable_display = cfg.base_bet_for_paytable_display)
    (hbet : cfg'.bet_per_line = cfg.bet_per_line)
    (hn : cfg'.num_lines = cfg.num_lines) :
    ∀ cnt, scatter_amount cfg' name cnt = scatter_amount cfg name cnt := by
  intro cnt
  unfold scatter_amount total_bet_per_spin
  rw [h, hb, hbet, hn]

lemma scatter_fired_congr {cfg cfg' : Config} (name : Sym)
    (h : (scatter_pays cfg').lookup name = (scatter_pays cfg).lookup name) :
    ∀ cnt, scatter_fired cfg' name cnt = scatter_fired cfg name cnt := by
  intro cnt
  unfold scatter_fired
  rw [h]

end SlotSim

/-- C9: the scatter phase of spin evaluation reads only the entries of
`scatter_pays` at the literal names "DollarScatter" and "StarScatter" — any
configured scatter symbol with a different identifier can never contribute a
payout, a winning flag or a ledger credit on any screen — and every ledger
key the scatter phase touches is of the form `"DollarScatter x{c} (Scatter)"`
or `"StarScatter x{c} (Scatter)"`. -/
theorem c9_scatter_names_hardcoded (cfg cfg' : SlotSim.Config) (orig : SlotSim.Screen)
    (st : SlotSim.EvalState)
    (hd : (SlotSim.scatter_pays cfg').lookup "DollarScatter" =
      (SlotSim.scatter_pays cfg).lookup "DollarScatter")
    (hs : (SlotSim.scatter_pays cfg').lookup "StarScatter" =
      (SlotSim.scatter_pays cfg).lookup "StarScatter")
    (hr : cfg'.star_scatter_reels = cfg.star_scatter_reels)
    (hb : cfg'.base_bet_for_paytable_display = cfg.base_bet_for_paytable_display)
    (hbet : cfg'.bet_per_line = cfg.bet_per_line)
    (hn : cfg'.num_lines = cfg.num_lines) :
    SlotSim.star_step cfg' orig (SlotSim.dollar_step cfg' orig st) =
      SlotSim.star_step cfg orig (SlotSim.dollar_step cfg orig st)
    ∧ ∀ k, (SlotSim.star_step cfg orig (SlotSim.dollar_step cfg orig st)).ledger k ≠
        st.ledger k →
      (∃ c, k = SlotSim.dollar_key c) ∨ (∃ c, k = SlotSim.star_key c) := by
  constructor
  · simp only [SlotSim.dollar_step_eq, SlotSim.star_step_eq, hr,
      SlotSim.scatter_amount_congr "DollarScatter" hd hb hbet hn,
      SlotSim.scatter_amount_congr "StarScatter" hs hb hbet hn,
      SlotSim.scatter_fired_congr "DollarScatter" hd,
      SlotSim.scatter_fired_congr "StarScatter" hs]
  · intro k hk
    simp only [SlotSim.dollar_step_eq, SlotSim.star_step_eq] at hk
    by_cases h1 : k = SlotSim.dollar_key (SlotSim.grid_count_rule orig "DollarScatter")
    · exact Or.inl ⟨_, h1⟩
    · by_cases h2 : k = SlotSim.star_key
        (SlotSim.reel_presence_rule cfg.star_scatter_reels orig "StarScatter")
      · exact Or.inr ⟨_, h2⟩
      · exact absurd (by simp [h1, h2]) hk

/-- Witness for C9: adding a third scatter symbol "MoonScatter" (present in
the scatter set and the paytable, and covering the whole screen) changes
nothing in the scatter phase. -/
theorem c9_scatter_names_hardcoded_witness :
    SlotSim.star_step
        { SlotSim.base_config with
          paytable := SlotSim.base_config.paytable ++ [("MoonScatter", [("15", 9999)])]
          scatter_symbols := ["DollarScatter", "StarScatter", "MoonScatter"] }
        (List.replicate 5 (List.replicate 3 "MoonScatter"))
        (SlotSim.dollar_step
          { SlotSim.base_config with
            paytable := SlotSim.base_config.paytable ++ [("MoonScatter", [("15", 9999)])]
            scatter_symbols := ["DollarScatter", "StarScatter", "MoonScatter"] }
          (List.replicate 5 (List.replicate 3 "MoonScatter"))
          { payout := 0, winning := false, ledger := fun _ => 0 }) =
      SlotSim.star_step SlotSim.base_config
        (List.replicate 5 (List.replicate 3 "MoonScatter"))
        (SlotSim.dollar_step SlotSim.base_config
          (List.replicate 5 (List.replicate 3 "MoonScatter"))
          { payout := 0, winning := false, ledger := fun _ => 0 }) :=
  (c9_scatter_names_hardcoded SlotSim.base_config
    { SlotSim.base_config with
      paytable := SlotSim.base_config.paytable ++ [("MoonScatter", [("15", 9999)])]
      scatter_symbols := ["DollarScatter", "StarScatter", "MoonScatter"] }
    (List.replicate 5 (List.replicate 3 "MoonScatter"))
    { payout := 0, winning := false, ledger := fun _ => 0 }
    (by decide) (by decide) rfl rfl rfl rfl).1

namespace SlotSim

lemma filter_wild_factor (w : Sym) (q : (Sym × List (String × ℚ)) → Bool)
    (l : List (Sym × List (String × ℚ))) :
    l.filter (fun p => p.1 != w && q p) = (l.filter (fun p => p.1 != w)).filter q := by
  rw [List.filter_filter]
  exact List.filter_congr (fun a _ => Bool.and_comm _ _)

lemma filter_of_wild_filter (w : Sym) (q : (Sym × List (String × ℚ)) → Bool)
    {pt pt' : List (Sym × List (String × ℚ))}
    (h : pt'.filter (fun p => p.1 != w) = pt.filter (fun p => p.1 != w)) :
    pt'.filter (fun p => p.1 != w && q p) = pt.filter (fun p => p.1 != w && q p) := by
  rw [filter_wild_factor w q pt', filter_wild_factor w q pt, h]

end SlotSim

/-- C10: the wild symbol's own paytable entries (their values, or the entry's
very presence) never influence spin evaluation: two configurations whose
paytables agree on every non-wild key produce identical evaluation results
(payout, winning flag and ledger) on every screen and from every accumulated
ledger. -/
theorem c10_wild_paytable_irrelevant (cfg : SlotSim.Config)
    (pt' : List (SlotSim.Sym × List (String × ℚ)))
    (h : pt'.filter (fun p => p.1 != cfg.wild_symbol) =
      cfg.paytable.filter (fun p => p.1 != cfg.wild_symbol))
    (orig : SlotSim.Screen) (L : SlotSim.Ledger) :
    SlotSim.calculate_spin_payout { cfg with paytable := pt' } orig L =
      SlotSim.calculate_spin_payout cfg orig L := by
  have hw : ({ cfg with paytable := pt' } : SlotSim.Config).wild_symbol =
    cfg.wild_symbol := rfl
  have hsc : ({ cfg with paytable := pt' } : SlotSim.Config).scatter_symbols =
    cfg.scatter_symbols := rfl
  have hsp : SlotSim.scatter_pays { cfg with paytable := pt' } = SlotSim.scatter_pays cfg := by
    unfold SlotSim.scatter_pays
    rw [SlotSim.filter_of_wild_filter cfg.wild_symbol
      (fun p => cfg.scatter_symbols.contains p.1) h]
  have hlp : SlotSim.line_pays { cfg with paytable := pt' } = SlotSim.line_pays cfg := by
    unfold SlotSim.line_pays
    rw [SlotSim.filter_of_wild_filter cfg.wild_symbol
      (fun p => !cfg.scatter_symbols.contains p.1) h]
  have hmapf : ∀ l : List (SlotSim.Sym × List (String × ℚ)),
      (l.map Prod.fst).filter
        (fun s => s != cfg.wild_symbol && !cfg.scatter_symbols.contains s) =
      (l.filter (fun p => p.1 != cfg.wild_symbol && !cfg.scatter_symbols.contains p.1)).map
        Prod.fst := by
    intro l
    rw [List.filter_map]
    exact congrArg (List.map Prod.fst) (List.filter_congr (fun a _ => rfl))
  have hreg : SlotSim.regular_symbols { cfg with paytable := pt' } =
      SlotSim.regular_symbols cfg := by
    unfold SlotSim.regular_symbols
    rw [hw, hsc, hmapf pt', hmapf cfg.paytable,
      SlotSim.filter_of_wild_filter cfg.wild_symbol
        (fun p => !cfg.scatter_symbols.contains p.1) h]
  have hcc : SlotSim.consecutive_count { cfg with paytable := pt' } =
    SlotSim.consecutive_count cfg := rfl
  have hclw : ∀ l, SlotSim.check_line_win { cfg with paytable := pt' } l =
      SlotSim.check_line_win cfg l := by
    intro l
    unfold SlotSim.check_line_win
    rw [hreg]
    simp only [hlp, hcc]
  have hd : ∀ st, SlotSim.dollar_step { cfg with paytable := pt' } orig st =
      SlotSim.dollar_step cfg orig st := by
    intro st
    unfold SlotSim.dollar_step
    rw [hsp]
    rfl
  have hs : ∀ st, SlotSim.star_step { cfg with paytable := pt' } orig st =
      SlotSim.star_step cfg orig st := by
    intro st
    unfold SlotSim.star_step
    rw [hsp]
    rfl
  have hls : SlotSim.line_step { cfg with paytable := pt' } = SlotSim.line_step cfg := by
    funext exp st pl
    unfold SlotSim.line_step
    rw [hclw]
    rfl
  have hexp : SlotSim.apply_expanding_wilds { cfg with paytable := pt' } =
    SlotSim.apply_expanding_wilds cfg := rfl
  unfold SlotSim.calculate_spin_payout
  rw [hls, hexp, hd, hs]

/-- Witness for C10: appending a paytable entry keyed by the wild symbol to
the base configuration leaves a concrete spin evaluation unchanged. -/
theorem c10_wild_paytable_irrelevant_witness :
    SlotSim.calculate_spin_payout
        { SlotSim.base_config with
          paytable := SlotSim.base_config.paytable ++ [("Wild", [("5", 77777)])] }
        [["Seven", "Seven", "Seven"], ["Wild", "Bell", "Bell"], ["Seven", "Plum", "Plum"],
         ["Cherry", "Cherry", "Cherry"], ["Lemon", "Lemon", "Lemon"]] (fun _ => 0) =
      SlotSim.calculate_spin_payout SlotSim.base_config
        [["Seven", "Seven", "Seven"], ["Wild", "Bell", "Bell"], ["Seven", "Plum", "Plum"],
         ["Cherry", "Cherry", "Cherry"], ["Lemon", "Lemon", "Lemon"]] (fun _ => 0) :=
  c10_wild_paytable_irrelevant SlotSim.base_config
    (SlotSim.base_config.paytable ++ [("Wild", [("5", 77777)])]) (by decide)
    [["Seven", "Seven", "Seven"], ["Wild", "Bell", "Bell"], ["Seven", "Plum", "Plum"],
     ["Cherry", "Cherry", "Cherry"], ["Lemon", "Lemon", "Lemon"]] (fun _ => 0)

/-- C4 counterexample: `run_simulation` never raises the spec's `ConfigError`.
With `numSpins = 0` the run reaches the results block and dies on the RTP
division by zero (`ZeroDivisionError`), and with an empty reel strip and a
positive spin count it dies at the first spin's `random.randrange(0)`
(`ValueError`); neither error is `ConfigError`. -/
theorem c4_counterexample :
    SlotSim.run_simulation SlotSim.base_config 0 (fun _ => []) =
      .error SlotSim.SimErr.zeroDivisionError
    ∧ SlotSim.run_simulation
        { SlotSim.base_config with virtual_reel_strips := [[], ["A"], ["A"], ["A"], ["A"]] }
        5 (fun _ => []) = .error SlotSim.SimErr.valueError
    ∧ SlotSim.SimErr.zeroDivisionError ≠ SlotSim.SimErr.configError := by
  refine ⟨?_, ?_, by decide⟩
  · unfold SlotSim.run_simulation
    simp [SlotSim.finalize_stats, SlotSim.pydiv]
  · unfold SlotSim.run_simulation
    simp

/-- C4 (amended): `run_simulation` performs no upfront configuration
validation and never raises `ConfigError`: with `numSpins = 0` the spin loop
is empty and the results block fails with `ZeroDivisionError` (after the
header has already been printed), and with `numSpins > 0` and some empty
reel strip the failure is a `ValueError` raised by the first spin's random
draw, not before the spin. -/
theorem c4_amended_validation_behavior (cfg : SlotSim.Config) (n : Nat)
    (stops : Nat → List Nat) :
    (n = 0 → SlotSim.run_simulation cfg n stops = .error SlotSim.SimErr.zeroDivisionError)
    ∧ (0 < n → cfg.virtual_reel_strips.any List.isEmpty = true →
        SlotSim.run_simulation cfg n stops = .error SlotSim.SimErr.valueError) := by
  constructor
  · rintro rfl
    unfold SlotSim.run_simulation
    simp [SlotSim.finalize_stats, SlotSim.pydiv]
  · intro hn he
    unfold SlotSim.run_simulation
    simp [hn, he]

/-- Witness for the amended C4 on a concrete config with an empty first reel:
zero spins give the division error, three spins give the draw error. -/
theorem c4_amended_validation_behavior_witness :
    SlotSim.run_simulation
        { SlotSim.base_config with virtual_reel_strips := [[], ["A"], ["A"], ["A"], ["A"]] }
        0 (fun _ => []) = .error SlotSim.SimErr.zeroDivisionError
    ∧ SlotSim.run_simulation
        { SlotSim.base_config with virtual_reel_strips := [[], ["A"], ["A"], ["A"], ["A"]] }
        3 (fun _ => []) = .error SlotSim.SimErr.valueError :=
  ⟨(c4_amended_validation_behavior _ 0 (fun _ => [])).1 rfl,
   (c4_amended_validation_behavior _ 3 (fun _ => [])).2 (by decide) (by decide)⟩

/-- C5 counterexample: a paytable holding a negative payout and an entry
keyed by the wild symbol parses without any error: the wild entry is silently
dropped, and the negative payout is stored unchanged in `line_pays`. -/
theorem c5_counterexample :
    SlotSim.line_pays { SlotSim.base_config with
        paytable := [("Cherry", [("3", -5)]), ("Wild", [("3", 100)])] } =
      [(("Cherry", 3), -5)]
    ∧ SlotSim.regular_symbols { SlotSim.base_config with
        paytable := [("Cherry", [("3", -5)]), ("Wild", [("3", 100)])] } = ["Cherry"]
    ∧ SlotSim.scatter_pays { SlotSim.base_config with
        paytable := [("Cherry", [("3", -5)]), ("Wild", [("3", 100)])] } = [] := by
  exact ⟨by decide, by decide, by decide⟩

/-- C5 (amended): paytable parsing performs no validation at all: it is a
total function; entries keyed by the wild symbol are silently skipped (the
wild never becomes a line-pay key), and every non-wild, non-scatter entry
with a digit count key — negative payout values included — is stored
unchanged in `line_pays`. -/
theorem c5_amended_parse_no_validation (cfg : SlotSim.Config) :
    (∀ (c : Nat) (q : ℚ), ((cfg.wild_symbol, c), q) ∉ SlotSim.line_pays cfg)
    ∧ (∀ (sym : SlotSim.Sym) (data : List (String × ℚ)) (k : String) (v : ℚ),
        (sym, data) ∈ cfg.paytable → sym ≠ cfg.wild_symbol →
        sym ∉ cfg.scatter_symbols → (k, v) ∈ data → SlotSim.pyIsDigit k = true →
        ((sym, SlotSim.pyToNat k), v) ∈ SlotSim.line_pays cfg) := by
  constructor
  · rintro c q hmem
    rw [SlotSim.line_pays] at hmem
    rcases List.mem_flatMap.mp hmem with ⟨p, hp, hin⟩
    rcases List.mem_map.mp hin with ⟨kv, _, heq⟩
    have hpf := (List.mem_filter.mp hp).2
    simp only [Bool.and_eq_true, bne_iff_ne] at hpf
    simp only [Prod.mk.injEq] at heq
    exact hpf.1 heq.1.1
  · intro sym data k v hmem hw hsc hkv hdig
    rw [SlotSim.line_pays]
    refine List.mem_flatMap.mpr ⟨(sym, data), List.mem_filter.mpr ⟨hmem, ?_⟩, ?_⟩
    · simp [hw, hsc]
    · exact List.mem_map.mpr ⟨(k, v), List.mem_filter.mpr ⟨hkv, hdig⟩, rfl⟩

/-- Witness for the amended C5: the negative Cherry payout is stored in
`line_pays` as-is. -/
theorem c5_amended_parse_no_validation_witness :
    (("Cherry", 3), (-5 : ℚ)) ∈ SlotSim.line_pays { SlotSim.base_config with
      paytable := [("Cherry", [("3", -5)]), ("Wild", [("3", 100)])] } :=
  (c5_amended_parse_no_validation _).2 "Cherry" [("3", -5)] "3" (-5)
    (by decide) (by decide) (by decide) (by decide) (by decide)

namespace SlotSim

lemma lookup_mem {α β : Type} [BEq α] :
    ∀ {l : List (α × β)} {a : α} {b : β}, l.lookup a = some b → ∃ a', (a', b) ∈ l
  | [], a, b, h => by simp [List.lookup] at h
  | (k, v) :: t, a, b, h => by
    rw [List.lookup] at h
    rcases hak : a == k with _ | _
    · rw [hak] at h
      obtain ⟨a', ha'⟩ := lookup_mem h
      exact ⟨a', List.mem_cons_of_mem _ ha'⟩
    · rw [hak] at h
      obtain rfl : v = b := by simpa using h
      exact ⟨k, List.mem_cons_self _ _⟩

/-- Every raw payout reachable through `scatter_pays` comes from a paytable
value. -/
lemma scatter_pays_value_zero {cfg : Config}
    (hz : ∀ p ∈ cfg.paytable, ∀ kv ∈ p.2, kv.2 = 0)
    {name : Sym} {tbl : List (Nat × ℚ)} {cnt : Nat} {raw : ℚ}
    (h1 : (scatter_pays cfg).lookup name = some tbl)
    (h2 : tbl.lookup cnt = some raw) : raw = 0 := by
  obtain ⟨name', hmem⟩ := lookup_mem h1
  rw [scatter_pays] at hmem
  rcases List.mem_map.mp hmem with ⟨p, hp, heq⟩
  obtain ⟨c', hc⟩ := lookup_mem h2
  simp only [Prod.mk.injEq] at heq
  rw [← heq.2] at hc
  rcases List.mem_map.mp hc with ⟨kv, hkv, heq2⟩
  have hv : kv.2 = raw := congrArg Prod.snd heq2
  rw [← hv]
  exact hz p (List.mem_filter.mp hp).1 kv (List.mem_filter.mp hkv).1

/-- Every raw payout stored in `line_pays` comes from a paytable value. -/
lemma line_pays_value_zero {cfg : Config}
    (hz : ∀ p ∈ cfg.paytable, ∀ kv ∈ p.2, kv.2 = 0)
    {key : Sym × Nat} {q : ℚ} (h : (key, q) ∈ line_pays cfg) : q = 0 := by
  rw [line_pays] at h
  rcases List.mem_flatMap.mp h with ⟨p, hp, hin⟩
  rcases List.mem_map.mp hin with ⟨kv, hkv, heq⟩
  have hv : kv.2 = q := congrArg Prod.snd heq
  rw [← hv]
  exact hz p (List.mem_filter.mp hp).1 kv (List.mem_filter.mp hkv).1

/-- The decrementing search only ever returns a `line_pays` lookup hit. -/
lemma search_down_lookup (lp : List ((Sym × Nat) × ℚ)) (target : Sym) (lo : Nat) :
    ∀ {c c' : Nat} {q : ℚ}, search_down lp target lo c = some (c', q) →
      lp.lookup (target, c') = some q
  | 0, c', q, h => by
    rw [search_down] at h
    by_cases h0 : lo = 0
    · rw [if_pos h0] at h
      rcases hl : lp.lookup (target, 0) with _ | v <;> rw [hl] at h
      · exact absurd h (by simp)
      · obtain ⟨rfl, rfl⟩ : 0 = c' ∧ v = q := by simpa using h
        exact hl
    · rw [if_neg h0] at h
      exact absurd h (by simp)
  | c + 1, c', q, h => by
    rw [search_down] at h
    by_cases hlt : c + 1 < lo
    · rw [if_pos hlt] at h
      exact absurd h (by simp)
    · rw [if_neg hlt] at h
      rcases hl : lp.lookup (target, c + 1) with _ | v <;> rw [hl] at h
      · exact search_down_lookup lp target lo h
      · obtain ⟨rfl, rfl⟩ : c + 1 = c' ∧ v = q := by simpa using h
        exact hl

/-- With an all-zero paytable every candidate payout of `_check_line_win` is
zero, so the best raw payout stays 0. -/
lemma check_fold_zero (cfg : Config) (line : List Sym)
    (hz : ∀ p ∈ cfg.paytable, ∀ kv ∈ p.2, kv.2 = 0) :
    ∀ (syms : List Sym) (b : ℚ × Option String), b.1 = 0 →
      (syms.foldl
        (fun best target =>
          let cnt := consecutive_count cfg line target
          let min_match : Nat := if target == "Seven" then 2 else 3
          match search_down (line_pays cfg) target min_match cnt with
          | some (c, raw) =>
            if raw > best.1 then (raw, some (target ++ " x" ++ toString c)) else best
          | none => best) b).1 = 0
  | [], _, hb => hb
  | S :: rest, b, hb => by
    rw [List.foldl_cons]
    apply check_fold_zero cfg line hz rest
    show (match search_down (line_pays cfg) S (if S == "Seven" then 2 else 3)
        (consecutive_count cfg line S) with
      | some (c, raw) => if raw > b.1 then (raw, some (S ++ " x" ++ toString c)) else b
      | none => b).1 = (0 : ℚ)
    rcases hs : search_down (line_pays cfg) S (if S == "Seven" then 2 else 3)
        (consecutive_count cfg line S) with _ | ⟨c, raw⟩
    · exact hb
    · have hraw : raw = 0 := by
        have hlk := search_down_lookup (line_pays cfg) S _ hs
        obtain ⟨key, hmem⟩ := lookup_mem hlk
        exact line_pays_value_zero hz hmem
      subst hraw
      simp [hb]

lemma check_line_win_zero {cfg : Config}
    (hz : ∀ p ∈ cfg.paytable, ∀ kv ∈ p.2, kv.2 = 0) (line : List Sym) :
    (check_line_win cfg line).1 = 0 := by
  rw [check_line_win]
  exact check_fold_zero cfg line hz (regular_symbols cfg) (0, none) rfl

lemma scatter_amount_zero {cfg : Config}
    (hz : ∀ p ∈ cfg.paytable, ∀ kv ∈ p.2, kv.2 = 0) (name : Sym) (cnt : Nat) :
    scatter_amount cfg name cnt = 0 := by
  rw [scatter_amount]
  rcases h1 : (scatter_pays cfg).lookup name with _ | tbl
  · rfl
  · rcases h2 : tbl.lookup cnt with _ | raw
    · simp [h2]
    · have : raw = 0 := scatter_pays_value_zero hz h1 h2
      simp [h2, this]

/-- When no payline scores a positive raw payout, the payline loop is the
identity. -/
lemma line_fold_id (cfg : Config) (expanded : Screen)
    (hzero : ∀ pl, ¬ (check_line_win cfg (line_symbols expanded pl)).1 > 0) :
    ∀ (pls : List (List (Nat × Nat))) (st : EvalState),
      pls.foldl (line_step cfg expanded) st = st
  | [], _ => rfl
  | pl :: pls, st => by
    rw [List.foldl_cons]
    have : line_step cfg expanded st pl = st := by
      simp only [line_step, if_neg (hzero pl)]
    rw [this]
    exact line_fold_id cfg expanded hzero pls st

/-- With an all-zero paytable the whole spin payout is zero. -/
lemma calc_payout_zero {cfg : Config}
    (hz : ∀ p ∈ cfg.paytable, ∀ kv ∈ p.2, kv.2 = 0) (orig : Screen) (L : Ledger) :
    (calculate_spin_payout cfg orig L).payout = 0 := by
  unfold calculate_spin_payout
  rw [line_fold_id cfg _ (fun pl => by
    rw [check_line_win_zero hz]
    exact lt_irrefl 0)]
  rw [star_step_eq, dollar_step_eq]
  simp [scatter_amount_zero hz]

end SlotSim

namespace SlotSim

/-- With all denominators nonzero and a nonnegative variance, the results
block succeeds and every reported statistic is the expected formula. -/
lemma finalize_ok (cfg : Config) (n : Nat) (acc : Accum)
    (hn : (n : ℚ) ≠ 0) (hbet : (n : ℚ) * total_bet_per_spin cfg ≠ 0)
    (hvar : ¬(acc.sum_sq / (n : ℚ) - (acc.total_payout / (n : ℚ)) ^ 2 < 0)) :
    finalize_stats cfg n acc = .ok
      { rtp := acc.total_payout / ((n : ℚ) * total_bet_per_spin cfg) * 100
        variance := acc.sum_sq / (n : ℚ) - (acc.total_payout / (n : ℚ)) ^ 2
        hit_frequency := (acc.winning_spins : ℚ) / (n : ℚ) * 100
        average_win := if acc.winning_spins > 0 then
          acc.total_payout / (acc.winning_spins : ℚ) else 0
        max_win := acc.max_win
        total_payout := acc.total_payout
        ledger := acc.ledger } := by
  rw [finalize_stats]
  simp only [pydiv, pysqrt_check, if_neg hbet, if_neg hn, if_neg hvar]

/-- When no strip is empty, the run is the pure accumulation loop followed by
the results block. -/
lemma run_eq_finalize (cfg : Config) (n : Nat) (stops : Nat → List Nat)
    (hne : cfg.virtual_reel_strips.any List.isEmpty = false) :
    run_simulation cfg n stops =
      finalize_stats cfg n
        ((List.range n).foldl (fun acc i => do_spin cfg acc (stops i)) init_accum) := by
  rw [run_simulation]
  simp [hne]

/-- With an all-zero paytable the spin loop never changes the payout sums. -/
lemma accum_zero_fold {cfg : Config}
    (hz : ∀ p ∈ cfg.paytable, ∀ kv ∈ p.2, kv.2 = 0) (stops : Nat → List Nat) :
    ∀ (l : List Nat) (acc : Accum),
      ((l.foldl (fun a i => do_spin cfg a (stops i)) acc).total_payout =
        acc.total_payout)
      ∧ ((l.foldl (fun a i => do_spin cfg a (stops i)) acc).sum_sq = acc.sum_sq)
  | [], _ => ⟨rfl, rfl⟩
  | i :: l, acc => by
    rw [List.foldl_cons]
    have hstep : (do_spin cfg acc (stops i)).total_payout = acc.total_payout ∧
        (do_spin cfg acc (stops i)).sum_sq = acc.sum_sq := by
      rw [do_spin]
      constructor
      · simp [calc_payout_zero hz]
      · simp [calc_payout_zero hz]
    obtain ⟨h1, h2⟩ := accum_zero_fold hz stops l (do_spin cfg acc (stops i))
    exact ⟨h1.trans hstep.1, h2.trans hstep.2⟩

end SlotSim

/-- C6 (amended): for a 1,000-spin run against a configuration with every
paytable payout value zero (nonempty strips, nonzero total bet), the run
succeeds with RTP exactly 0% and variance exactly 0.  (Hit frequency is NOT
guaranteed to be 0: scatter counts that hit a zero-payout table entry still
mark the spin winning — see the counterexample.) -/
theorem c6_zero_paytable_stats (cfg : SlotSim.Config) (stops : Nat → List Nat)
    (hz : ∀ p ∈ cfg.paytable, ∀ kv ∈ p.2, kv.2 = 0)
    (hne : cfg.virtual_reel_strips.any List.isEmpty = false)
    (hbet : SlotSim.total_bet_per_spin cfg ≠ 0) :
    ∃ r, SlotSim.run_simulation cfg 1000 stops = .ok r ∧ r.rtp = 0 ∧ r.variance = 0 := by
  rw [SlotSim.run_eq_finalize cfg 1000 stops hne]
  obtain ⟨ht, hs⟩ := SlotSim.accum_zero_fold hz stops (List.range 1000) SlotSim.init_accum
  have ht0 : ((List.range 1000).foldl (fun a i => SlotSim.do_spin cfg a (stops i))
      SlotSim.init_accum).total_payout = 0 := ht
  have hs0 : ((List.range 1000).foldl (fun a i => SlotSim.do_spin cfg a (stops i))
      SlotSim.init_accum).sum_sq = 0 := hs
  have hn : ((1000 : Nat) : ℚ) ≠ 0 := by norm_num
  have hvar : ¬(((List.range 1000).foldl (fun a i => SlotSim.do_spin cfg a (stops i))
        SlotSim.init_accum).sum_sq / ((1000 : Nat) : ℚ) -
      (((List.range 1000).foldl (fun a i => SlotSim.do_spin cfg a (stops i))
        SlotSim.init_accum).total_payout / ((1000 : Nat) : ℚ)) ^ 2 < 0) := by
    rw [ht0, hs0]
    norm_num
  rw [SlotSim.finalize_ok cfg 1000 _ hn (mul_ne_zero hn hbet) hvar]
  refine ⟨_, rfl, ?_, ?_⟩
  · rw [ht0]
    norm_num
  · rw [ht0, hs0]
    norm_num

/-- Witness for the amended C6: the all-zero `cfg_zero` run of 1,000 spins
reports RTP 0% and variance 0. -/
theorem c6_zero_paytable_stats_witness :
    ∃ r, SlotSim.run_simulation SlotSim.cfg_zero 1000 (fun _ => []) = .ok r ∧
      r.rtp = 0 ∧ r.variance = 0 :=
  c6_zero_paytable_stats SlotSim.cfg_zero (fun _ => [])
    (by decide) (by decide)
    (by norm_num [SlotSim.total_bet_per_spin, SlotSim.cfg_zero, SlotSim.base_config])

namespace SlotSim

/-- Every spin of `cfg_zero` shows the all-DollarScatter screen, whatever the
stop positions. -/
lemma spin_reels_cfg_zero (s : List Nat) :
    spin_reels cfg_zero.virtual_reel_strips s =
      [["DollarScatter", "DollarScatter", "DollarScatter"],
       ["DollarScatter", "DollarScatter", "DollarScatter"],
       ["DollarScatter", "DollarScatter", "DollarScatter"],
       ["DollarScatter", "DollarScatter", "DollarScatter"],
       ["DollarScatter", "DollarScatter", "DollarScatter"]] := by
  have hs : cfg_zero.virtual_reel_strips = List.replicate 5 ["DollarScatter"] := rfl
  rw [hs, spin_reels]
  simp [List.replicate, List.range_succ, Nat.mod_one]

/-- The payline loop never clears the winning flag. -/
lemma line_fold_winning (cfg : Config) (expanded : Screen) :
    ∀ (pls : List (List (Nat × Nat))) (st : EvalState), st.winning = true →
      (pls.foldl (line_step cfg expanded) st).winning = true
  | [], _, h => h
  | pl :: pls, st, h => by
    rw [List.foldl_cons]
    apply line_fold_winning cfg expanded pls
    by_cases hc : (check_line_win cfg (line_symbols expanded pl)).1 > 0
    · simp [line_step, if_pos hc, credit]
    · simpa [line_step, if_neg hc] using h

/-- On the all-DollarScatter screen of `cfg_zero`, every spin is marked
winning (the 15-count scatter entry exists even though it pays 0). -/
lemma calc_cfg_zero_winning (L : Ledger) :
    (calculate_spin_payout cfg_zero
      [["DollarScatter", "DollarScatter", "DollarScatter"],
       ["DollarScatter", "DollarScatter", "DollarScatter"],
       ["DollarScatter", "DollarScatter", "DollarScatter"],
       ["DollarScatter", "DollarScatter", "DollarScatter"],
       ["DollarScatter", "DollarScatter", "DollarScatter"]] L).winning = true := by
  unfold calculate_spin_payout
  apply line_fold_winning
  rw [star_step_eq, dollar_step_eq]
  simp only [Bool.or_eq_true]
  exact Or.inl (Or.inr (by decide))

/-- On `cfg_zero` every spin increments the winning-spin counter. -/
lemma accum_winning_cfg_zero (stops : Nat → List Nat) :
    ∀ (l : List Nat) (acc : Accum),
      ((l.foldl (fun a i => do_spin cfg_zero a (stops i)) acc).winning_spins =
        acc.winning_spins + l.length)
  | [], _ => rfl
  | i :: l, acc => by
    rw [List.foldl_cons, accum_winning_cfg_zero stops l]
    have : (do_spin cfg_zero acc (stops i)).winning_spins = acc.winning_spins + 1 := by
      rw [do_spin]
      simp [spin_reels_cfg_zero, calc_cfg_zero_winning]
    rw [this, List.length_cons]
    omega

end SlotSim

/-- C6 counterexample: against `cfg_zero` (a configuration in which every
paytable payout value is zero) a 1,000-spin run reports a hit frequency of
100%, not 0%: every spin's 15 DollarScatter cells match the zero-payout
scatter entry and mark the spin winning. -/
theorem c6_counterexample :
    (SlotSim.run_simulation SlotSim.cfg_zero 1000 (fun _ => [])).map
      SlotSim.Report.hit_frequency = Except.ok 100 := by
  rw [SlotSim.run_eq_finalize SlotSim.cfg_zero 1000 (fun _ => []) (by decide)]
  have hz : ∀ p ∈ SlotSim.cfg_zero.paytable, ∀ kv ∈ p.2, kv.2 = 0 := by decide
  obtain ⟨ht, hs⟩ := SlotSim.accum_zero_fold hz (fun _ => [])
    (List.range 1000) SlotSim.init_accum
  have hw := SlotSim.accum_winning_cfg_zero (fun _ => [])
    (List.range 1000) SlotSim.init_accum
  have hn : ((1000 : Nat) : ℚ) ≠ 0 := by norm_num
  have hvar : ¬(((List.range 1000).foldl
        (fun a i => SlotSim.do_spin SlotSim.cfg_zero a ((fun _ => ([] : List Nat)) i))
        SlotSim.init_accum).sum_sq / ((1000 : Nat) : ℚ) -
      (((List.range 1000).foldl
        (fun a i => SlotSim.do_spin SlotSim.cfg_zero a ((fun _ => ([] : List Nat)) i))
        SlotSim.init_accum).total_payout / ((1000 : Nat) : ℚ)) ^ 2 < 0) := by
    rw [ht, hs]
    norm_num [SlotSim.init_accum]
  have hbet : ((1000 : Nat) : ℚ) * SlotSim.total_bet_per_spin SlotSim.cfg_zero ≠ 0 := by
    norm_num [SlotSim.total_bet_per_spin, SlotSim.cfg_zero, SlotSim.base_config]
  rw [SlotSim.finalize_ok SlotSim.cfg_zero 1000 _ hn hbet hvar]
  rw [Except.map]
  have hw1000 : ((List.range 1000).foldl
      (fun a i => SlotSim.do_spin SlotSim.cfg_zero a ((fun _ => ([] : List Nat)) i))
      SlotSim.init_accum).winning_spins = 1000 := by
    rw [hw]
    simp [SlotSim.init_accum]
  simp only [hw1000]
  norm_num

namespace SlotSim

/-- In exact rational arithmetic the computed variance of any run of payouts
is nonnegative (Cauchy-Schwarz), so an accumulator state with a negative
computed variance can only arise through the source's floating-point
rounding (cancellation in `sum_sq/n - mean^2`), never in this embedding's
reachable states. -/
lemma variance_nonneg (n : Nat) (hn : 0 < n) (f : Nat → ℚ) :
    0 ≤ (∑ i ∈ Finset.range n, f i ^ 2) / (n : ℚ) -
      ((∑ i ∈ Finset.range n, f i) / (n : ℚ)) ^ 2 := by
  have h : (∑ i ∈ Finset.range n, f i) ^ 2 ≤
      (n : ℚ) * ∑ i ∈ Finset.range n, f i ^ 2 := by
    simpa using sq_sum_le_card_mul_sum_sq (s := Finset.range n) (f := f)
  have hn' : (0 : ℚ) < n := by exact_mod_cast hn
  rw [sub_nonneg, div_pow, div_le_div_iff₀ (by positivity) hn']
  nlinarith [mul_le_mul_of_nonneg_right h (le_of_lt hn')]

end SlotSim

/-- C7: the claim's clamped formula `stdDev = sqrt(max(variance, 0))` is not
what the source computes — the results block runs `math.sqrt(variance)` with
no clamp, so on an accumulator state whose computed variance is negative
(here `numSpins = 4`, `totalPayout = 4`, `sumSquaredPayout = 0`, giving
variance `0/4 - 1² = -1`; under the source's floats such a state arises from
cancellation in `sum_sq/n - mean²`) finalization fails with the math domain
error instead of reporting `sqrt(max(-1, 0)) = 0`. -/
theorem c7_missing_clamp_failure :
    SlotSim.finalize_stats SlotSim.base_config 4
      { total_payout := 4, sum_sq := 0, winning_spins := 2, max_win := 2,
        ledger := fun _ => 0 } = .error SlotSim.SimErr.mathDomainError := by
  rw [SlotSim.finalize_stats]
  norm_num [SlotSim.pydiv, SlotSim.pysqrt_check, SlotSim.total_bet_per_spin,
    SlotSim.base_config]
